import Mathlib

/-!
Shallow embedding of the `running-wasm-component` Python repository
(`examples/python/main.py` and `examples/python/src/{config,models,runners,exceptions}.py`).

Pure string/command construction and validation logic is translated directly;
the external world (filesystem existence, subprocess outcome, wall-clock time)
is passed in explicitly as parameters, so that `execute_component` becomes a
pure function from the child-process outcome to the returned result or raised
error.
-/

deriving instance DecidableEq for Except

namespace RunningWasm

/-- JSON-serializable Python values, as consumed by `json.dumps`.
Numbers are modelled as integers (the payloads in this repository use only
integers and strings). -/
inductive JValue where
  | null : JValue
  | bool : Bool → JValue
  | num : Int → JValue
  | str : String → JValue
  | arr : List JValue → JValue
  | obj : List (String × JValue) → JValue

/-- Lowercase hex digit used by `json.dumps` for `\u` escapes. -/
def hexDigit (n : Nat) : Char :=
  if n < 10 then Char.ofNat (48 + n) else Char.ofNat (87 + n)

/-- Escaping of a single character inside a JSON string literal, following
`json.dumps` with its default `ensure_ascii=True` (characters of the Basic
Multilingual Plane; the repository only ever serializes ASCII). -/
def escapeChar (c : Char) : String :=
  if c = '"' then "\\\""
  else if c = '\\' then "\\\\"
  else if c = '\n' then "\\n"
  else if c = '\t' then "\\t"
  else if c = '\r' then "\\r"
  else if c = Char.ofNat 8 then "\\b"
  else if c = Char.ofNat 12 then "\\f"
  else if c.toNat < 32 ∨ 126 < c.toNat then
    String.mk ['\\', 'u', hexDigit (c.toNat / 4096 % 16), hexDigit (c.toNat / 256 % 16),
               hexDigit (c.toNat / 16 % 16), hexDigit (c.toNat % 16)]
  else String.mk [c]

/-- `json.dumps` on a Python `str`: double quotes around the escaped characters. -/
def dumpsString (s : String) : String :=
  "\"" ++ String.join (s.data.map escapeChar) ++ "\""

mutual

/-- `json.dumps` with Python's default separators `", "` and `": "`. -/
def dumps : JValue → String
  | .null => "null"
  | .bool true => "true"
  | .bool false => "false"
  | .num n => toString n
  | .str s => dumpsString s
  | .arr xs => "[" ++ dumpsList xs ++ "]"
  | .obj fs => "\x7b" ++ dumpsFields fs ++ "\x7d"

/-- Comma-separated serialization of a JSON array's elements. -/
def dumpsList : List JValue → String
  | [] => ""
  | [x] => dumps x
  | x :: y :: xs => dumps x ++ ", " ++ dumpsList (y :: xs)

/-- Comma-separated serialization of a JSON object's fields. -/
def dumpsFields : List (String × JValue) → String
  | [] => ""
  | [(k, v)] => dumpsString k ++ ": " ++ dumps v
  | (k, v) :: f :: fs => dumpsString k ++ ": " ++ dumps v ++ ", " ++ dumpsFields (f :: fs)

end

/-- ASCII whitespace recognized by Python's `str.strip()`. -/
def isPySpace (c : Char) : Bool :=
  c = ' ' ∨ c = '\t' ∨ c = '\n' ∨ c = '\r' ∨ c = Char.ofNat 11 ∨ c = Char.ofNat 12

/-- Python's `str.strip()`: drop leading and trailing whitespace. -/
def pyStrip (s : String) : String :=
  String.mk (((s.data.dropWhile isPySpace).reverse.dropWhile isPySpace).reverse)

/-- The exception taxonomy of `src/exceptions.py` (`WasmRunnerError` subclasses),
carrying the message the Python code formats into the exception. -/
inductive WasmError where
  | configurationError (msg : String)
  | environmentError (msg : String)
  | executionError (msg : String)
  deriving Repr, DecidableEq

/-- `ComponentConfig` of `src/config.py` (and, field for field, the inline
dataclass of `main.py`): an immutable record; `__post_init__` validation is
the separate function `ComponentConfig.validate`. -/
structure ComponentConfig where
  application_id : String
  action_id : String
  payload : List (String × JValue)
  wasm_file : String
  timeout : Int

/-- Default of the `wasm_file` field in `src/config.py`. -/
def SRC_DEFAULT_WASM_FILE : String := "actions.wasm"

/-- Default of the `wasm_file` field of the inline dataclass in `main.py`. -/
def MAIN_DEFAULT_WASM_FILE : String := "app.wasm"

/-- Default of the `timeout` field in `src/config.py`. -/
def SRC_DEFAULT_TIMEOUT : Int := 30

/-- Default of the `timeout` field of the inline dataclass in `main.py`. -/
def MAIN_DEFAULT_TIMEOUT : Int := 30

/-- A lowercase hexadecimal digit, the character class `[a-f0-9]`. -/
def isLowerHex (c : Char) : Bool :=
  ('a' ≤ c ∧ c ≤ 'f') ∨ ('0' ≤ c ∧ c ≤ '9')

/-- Python's `re.compile(r"^[a-f0-9]{32}$").match(s)` as a Boolean.
In Python `$` matches at the end of the string or just before a single
trailing newline, so the pattern also accepts a 33-character string whose
first 32 characters are hex digits and whose last character is `'\n'`. -/
def matchesIdPattern (s : String) : Bool :=
  (s.data.length = 32 ∧ s.data.all isLowerHex) ∨
  (s.data.length = 33 ∧ (s.data.take 32).all isLowerHex ∧ s.data.getLast? = some '\n')

/-- `ComponentConfig._validate_ids`: empty-string check then pattern check,
for `application_id` first and `action_id` second, failing fast with a
`ConfigurationError`. -/
def validateIds (application_id action_id : String) : Except WasmError Unit :=
  if application_id = "" then
    .error (.configurationError "application_id must be a non-empty string")
  else if ¬ matchesIdPattern application_id then
    .error (.configurationError "application_id must be a 32-character hex string")
  else if action_id = "" then
    .error (.configurationError "action_id must be a non-empty string")
  else if ¬ matchesIdPattern action_id then
    .error (.configurationError "action_id must be a 32-character hex string")
  else .ok ()

/-- `ComponentConfig._validate_timeout`: a positive integer of at most 300. -/
def validateTimeout (timeout : Int) : Except WasmError Unit :=
  if timeout ≤ 0 then
    .error (.configurationError "timeout must be a positive integer")
  else if 300 < timeout then
    .error (.configurationError "timeout cannot exceed 300 seconds")
  else .ok ()

/-- `ComponentConfig.__post_init__`: run the validators in order; a valid
config is returned unchanged, an invalid construction fails with the first
violation's `ConfigurationError` (`_validate_payload` always succeeds here
because the embedding types `payload` as a dictionary). -/
def ComponentConfig.validate (c : ComponentConfig) : Except WasmError ComponentConfig := do
  let _ ← validateIds c.application_id c.action_id
  let _ ← validateTimeout c.timeout
  .ok c

/-- Constructing a `ComponentConfig`, i.e. the dataclass constructor followed
by `__post_init__`. -/
def mkComponentConfig (application_id action_id : String) (payload : List (String × JValue))
    (wasm_file : String) (timeout : Int) : Except WasmError ComponentConfig :=
  ComponentConfig.validate
    { application_id := application_id, action_id := action_id, payload := payload,
      wasm_file := wasm_file, timeout := timeout }

/-- `ExecutionResult` of `src/models.py` (identical to the inline dataclass in
`main.py`). `execution_time` is wall-clock seconds, modelled abstractly as the
elapsed value handed to the executor. -/
structure ExecutionResult where
  success : Bool
  output : String
  exit_code : Option Int
  execution_time : Option Nat
  error_type : Option String
  deriving Repr, DecidableEq

/-- The `WasmRunner.CLI_TOOL` constant. -/
def CLI_TOOL : String := "wasmtime"

/-- The `WasmRunner.CLI_FLAGS` constant. -/
def CLI_FLAGS : List String := ["-S", "http"]

/-- The `WasmRunner.MAX_OUTPUT_SIZE` constant (1 MiB). -/
def MAX_OUTPUT_SIZE : Nat := 1024 * 1024

/-- The marker appended by `execute_component` when stdout is truncated. -/
def TRUNCATION_MARKER : String := "... (truncated)"

/-- Python `dict.get(key, default)` on the embedding's association-list payload. -/
def dictGet (payload : List (String × JValue)) (key : String) (dflt : JValue) : JValue :=
  (payload.lookup key).getD dflt

/-- Common body of the two `_build_invoke_expression` methods; `dflt` is the
second argument of `config.payload.get("input", ...)`, the one place where
`main.py` and `src/runners.py` differ. -/
def buildInvokeExpressionWith (dflt : JValue) (config : ComponentConfig) : String :=
  let payload_input := dumps (dictGet config.payload "input" dflt)
  "call(\x7b" ++
  "application-id: \"" ++ config.application_id ++ "\", " ++
  "action-id: \"" ++ config.action_id ++ "\", " ++
  "payload: \x7binput: " ++ payload_input ++ "\x7d" ++
  "\x7d)"

/-- `WasmRunner._build_invoke_expression` of `src/runners.py`:
`json.dumps(config.payload.get("input", {}))` — the default is the empty dict. -/
def buildInvokeExpression (config : ComponentConfig) : String :=
  buildInvokeExpressionWith (.obj []) config

/-- `WasmRunner._build_invoke_expression` of `main.py`:
`json.dumps(config.payload.get("input", "{}"))` — the default is the
two-character string `"{}"`. -/
def mainBuildInvokeExpression (config : ComponentConfig) : String :=
  buildInvokeExpressionWith (.str "\x7b\x7d") config

/-- `WasmRunner._build_command`: check that the WASM file exists (raising
`ConfigurationError` if not), resolve it to an absolute path, and assemble the
argument vector. The filesystem is abstracted by `fileExists` and the
`Path.resolve` call by `resolve`. -/
def buildCommand (fileExists : String → Bool) (resolve : String → String)
    (config : ComponentConfig) : Except WasmError (List String) :=
  if ¬ fileExists config.wasm_file then
    .error (.configurationError ("WASM file not found: " ++ config.wasm_file))
  else
    .ok ([CLI_TOOL, "run", "--invoke", buildInvokeExpression config]
          ++ CLI_FLAGS ++ [resolve config.wasm_file])

/-- Outcome of the `subprocess.run` call inside `execute_component`:
completion with an exit code and captured streams, `subprocess.TimeoutExpired`,
an `OSError`/`PermissionError`, or any other unexpected exception. -/
inductive ProcessOutcome where
  | completed (returncode : Int) (stdout stderr : String)
  | timedOut
  | osError (msg : String)
  | unexpected (msg : String)

/-- `WasmRunner.execute_component` of `src/runners.py` as a pure function of the
child-process outcome. `fileExists` stands for the filesystem at command-build
time and `elapsed` for the measured wall-clock time. A `ConfigurationError`
raised by `_build_command` inside the `try` block is caught by the final
`except Exception` handler and re-raised as
`ExecutionError("Unexpected error: " + str(e))`; logging is omitted. -/
def executeComponent (fileExists : String → Bool) (config : ComponentConfig)
    (outcome : ProcessOutcome) (elapsed : Nat) : Except WasmError ExecutionResult :=
  if ¬ fileExists config.wasm_file then
    .error (.executionError ("Unexpected error: WASM file not found: " ++ config.wasm_file))
  else
    match outcome with
    | .completed returncode stdout stderr =>
        let output :=
          if MAX_OUTPUT_SIZE < stdout.data.length then
            String.mk (stdout.data.take MAX_OUTPUT_SIZE) ++ TRUNCATION_MARKER
          else pyStrip stdout
        if returncode = 0 then
          let final_output := if output = "" then "Success (no output)" else output
          .ok { success := true, output := final_output, exit_code := some returncode,
                execution_time := some elapsed, error_type := none }
        else
          let error_msg := if stderr = "" then "Unknown error" else pyStrip stderr
          .ok { success := false, output := "Execution failed: " ++ error_msg,
                exit_code := some returncode, execution_time := some elapsed,
                error_type := some "execution_failure" }
    | .timedOut =>
        .ok { success := false,
              output := "Execution timed out after " ++ toString config.timeout ++ "s",
              exit_code := none, execution_time := some elapsed,
              error_type := some "timeout" }
    | .osError msg =>
        .ok { success := false, output := "System error: " ++ msg,
              exit_code := none, execution_time := some elapsed,
              error_type := some "system_error" }
    | .unexpected msg =>
        .error (.executionError ("Unexpected error: " ++ msg))

/-- One entry of the dict comprehension in `BettyBlocksRunner.create_config`:
keep the pair only if the key is a string (`isinstance(k, str)`) and the value
is not `None`. -/
def sanitizeEntry : JValue × JValue → Option (String × JValue)
  | (JValue.str _, JValue.null) => none
  | (JValue.str k, v) => some (k, v)
  | _ => none

/-- The sanitization step of `BettyBlocksRunner.create_config`:
`{k: v for k, v in input_data.items() if v is not None and isinstance(k, str)}`.
Python dictionary keys may be arbitrary values, so the raw input is an
association list over `JValue` keys. -/
def sanitizeInput (input_data : List (JValue × JValue)) : List (String × JValue) :=
  input_data.filterMap sanitizeEntry

/-- `BettyBlocksRunner.create_config`: default the input to `{}`, sanitize it,
JSON-encode it into the payload's `input` entry as a string, and construct the
validated `ComponentConfig` with the runner's `wasm_file` and `timeout`. -/
def create_config (wasm_file : String) (timeout : Int)
    (application_id action_id : String)
    (input_data : Option (List (JValue × JValue))) : Except WasmError ComponentConfig :=
  let inp := input_data.getD []
  mkComponentConfig application_id action_id
    [("input", JValue.str (dumps (JValue.obj (sanitizeInput inp))))]
    wasm_file timeout

/-- Observable outcomes of the body of `main()` in `main.py`: the runner
returned a result (with its success flag and message), or one of the exception
classes reached the `except` clauses. -/
inductive MainOutcome where
  | result (success : Bool) (output : String)
  | configurationError (msg : String)
  | environmentError (msg : String)
  | executionError (msg : String)
  | keyboardInterrupt
  | fatalError (msg : String)

/-- The process exit code produced by `main()` for each outcome: a successful
result falls through to a normal exit (0), an unsuccessful result calls
`sys.exit(1)`, and each `except` clause calls `sys.exit` with its code. -/
def mainExitCode : MainOutcome → Nat
  | .result true _ => 0
  | .result false _ => 1
  | .configurationError _ => 2
  | .environmentError _ => 3
  | .executionError _ => 4
  | .keyboardInterrupt => 130
  | .fatalError _ => 1

/-- Projection used to state concrete facts about executor results: the
`output` field of a returned result (empty for a raised error). -/
def resultOutput : Except WasmError ExecutionResult → String
  | .ok r => r.output
  | .error _ => ""

/-- Whether an embedded call returned normally. -/
def isOkResult {α : Type} : Except WasmError α → Bool
  | .ok _ => true
  | .error _ => false

/-- Whether an embedded call raised a `ConfigurationError`. -/
def isConfigurationError {α : Type} : Except WasmError α → Bool
  | .error (.configurationError _) => true
  | _ => false

/-- The payload's encoded `input` entry of a successfully constructed config. -/
def payloadInputOf : Except WasmError ComponentConfig → Option String
  | .ok c =>
      match c.payload.lookup "input" with
      | some (.str s) => some s
      | _ => none
  | .error _ => none

/-- The sample application id used throughout `main.py`. -/
def APP_ID : String := "be3c7dec126547c5bdb1870ca9d86778"

/-- The sample action id used throughout `main.py`. -/
def ACT_ID : String := "7c33a2b6355545338b536a4863486d97"

/-- A validated configuration with an empty payload, used for concrete runs. -/
def baseConfig : ComponentConfig :=
  { application_id := APP_ID, action_id := ACT_ID, payload := [],
    wasm_file := "actions.wasm", timeout := 30 }

/-- A 33-character candidate id: 32 hex digits followed by a newline. -/
def NEWLINE_ID : String := String.mk (List.replicate 32 'a' ++ ['\n'])

/-- A stdout capture one character over the 1 MiB limit, all spaces. -/
def bigSpaces : String := String.mk (List.replicate (MAX_OUTPUT_SIZE + 1) ' ')

/-- A stderr capture of exactly 1 MiB of `'a'`. -/
def bigErr : String := String.mk (List.replicate MAX_OUTPUT_SIZE 'a')

/-- The injection probe value from the spec's testable properties. -/
def INJECTION_VALUE : String := "\"); rm -rf /;"

/-- `json.dumps({"key": INJECTION_VALUE})`, the string stored in the payload's
`input` entry by `create_config`. -/
def INJECTION_ENCODED : String := "\x7b\"key\": \"\\\"); rm -rf /;\"\x7d"

/-- The configuration produced by `create_config` for the injection probe. -/
def injectionConfig : ComponentConfig :=
  { application_id := APP_ID, action_id := ACT_ID,
    payload := [("input", JValue.str INJECTION_ENCODED)],
    wasm_file := "actions.wasm", timeout := 30 }

theorem length_dropWhile_le (p : Char → Bool) (l : List Char) :
    (l.dropWhile p).length ≤ l.length := by
  induction l with
  | nil => simp
  | cons x xs ih =>
      rw [List.dropWhile_cons]
      split
      · simp only [List.length_cons]; omega
      · simp

theorem dropWhile_replicate_space (n : Nat) :
    List.dropWhile isPySpace (List.replicate n ' ') = [] := by
  induction n with
  | zero => simp
  | succ m ih => rw [List.replicate_succ, List.dropWhile_cons]; simp [isPySpace, ih]

theorem dropWhile_replicate_of_not_space (c : Char) (h : isPySpace c = false) (n : Nat) :
    List.dropWhile isPySpace (List.replicate n c) = List.replicate n c := by
  cases n with
  | zero => simp
  | succ m => rw [List.replicate_succ, List.dropWhile_cons]; simp [h]

theorem pyStrip_replicate_space (n : Nat) :
    pyStrip (String.mk (List.replicate n ' ')) = "" := by
  unfold pyStrip
  rw [show (String.mk (List.replicate n ' ')).data = List.replicate n ' ' from rfl,
      dropWhile_replicate_space]
  rfl

theorem pyStrip_replicate_of_not_space (c : Char) (h : isPySpace c = false) (n : Nat) :
    pyStrip (String.mk (List.replicate n c)) = String.mk (List.replicate n c) := by
  simp [pyStrip, dropWhile_replicate_of_not_space c h, List.reverse_replicate]

theorem length_pyStrip_le (s : String) : (pyStrip s).length ≤ s.data.length := by
  calc (pyStrip s).length
      = (((s.data.dropWhile isPySpace).reverse.dropWhile isPySpace).reverse).length := rfl
    _ = ((s.data.dropWhile isPySpace).reverse.dropWhile isPySpace).length := by
        rw [List.length_reverse]
    _ ≤ (s.data.dropWhile isPySpace).reverse.length := length_dropWhile_le _ _
    _ = (s.data.dropWhile isPySpace).length := by rw [List.length_reverse]
    _ ≤ s.data.length := length_dropWhile_le _ _

theorem mk_ne_empty (l : List Char) (h : l ≠ []) : String.mk l ≠ "" :=
  fun he => h (congrArg String.data he)

theorem strAppend_ne_empty (s t : String) (h : s.data ≠ []) : s ++ t ≠ "" := by
  intro he
  have hd : (s ++ t).data = [] := congrArg String.data he
  rw [String.data_append] at hd
  exact h (List.append_eq_nil.mp hd).1

theorem exec_completed_zero_small (fe : String → Bool) (cfg : ComponentConfig)
    (stdout stderr : String) (t : Nat)
    (hfe : fe cfg.wasm_file = true) (hsz : stdout.length ≤ MAX_OUTPUT_SIZE) :
    executeComponent fe cfg (.completed 0 stdout stderr) t =
      .ok { success := true,
            output := if pyStrip stdout = "" then "Success (no output)" else pyStrip stdout,
            exit_code := some 0, execution_time := some t, error_type := none } := by
  simp [executeComponent, hfe, Nat.not_lt.mpr hsz]

theorem exec_completed_zero_big (fe : String → Bool) (cfg : ComponentConfig)
    (stdout stderr : String) (t : Nat)
    (hfe : fe cfg.wasm_file = true) (hsz : MAX_OUTPUT_SIZE < stdout.length) :
    executeComponent fe cfg (.completed 0 stdout stderr) t =
      .ok { success := true,
            output := String.mk (stdout.data.take MAX_OUTPUT_SIZE) ++ TRUNCATION_MARKER,
            exit_code := some 0, execution_time := some t, error_type := none } := by
  have hne : String.mk (stdout.data.take MAX_OUTPUT_SIZE) ++ TRUNCATION_MARKER ≠ "" := by
    intro he
    have hd := congrArg String.data he
    rw [String.data_append] at hd
    exact absurd (List.append_eq_nil.mp hd).2 (by decide)
  simp [executeComponent, hfe, hsz, hne]

theorem exec_completed_nonzero (fe : String → Bool) (cfg : ComponentConfig)
    (rc : Int) (stdout stderr : String) (t : Nat)
    (hfe : fe cfg.wasm_file = true) (hrc : rc ≠ 0) :
    executeComponent fe cfg (.completed rc stdout stderr) t =
      .ok { success := false,
            output := "Execution failed: " ++ (if stderr = "" then "Unknown error" else pyStrip stderr),
            exit_code := some rc, execution_time := some t,
            error_type := some "execution_failure" } := by
  simp [executeComponent, hfe, hrc]

theorem exec_timedOut (fe : String → Bool) (cfg : ComponentConfig) (t : Nat)
    (hfe : fe cfg.wasm_file = true) :
    executeComponent fe cfg .timedOut t =
      .ok { success := false,
            output := "Execution timed out after " ++ toString cfg.timeout ++ "s",
            exit_code := none, execution_time := some t,
            error_type := some "timeout" } := by
  simp [executeComponent, hfe]

theorem exec_osError (fe : String → Bool) (cfg : ComponentConfig) (m : String) (t : Nat)
    (hfe : fe cfg.wasm_file = true) :
    executeComponent fe cfg (.osError m) t =
      .ok { success := false, output := "System error: " ++ m,
            exit_code := none, execution_time := some t,
            error_type := some "system_error" } := by
  simp [executeComponent, hfe]

/-- C1: the claim says a missing WASM file at command-build time makes an
execution call fail with `ConfigurationError`. The code does raise
`ConfigurationError` inside `_build_command`, but `execute_component`'s final
`except Exception` handler catches it and re-raises it as `ExecutionError`, so
the call actually fails with `ExecutionError` ("Unexpected error: WASM file not
found: ..."): for a config whose fields validate successfully and whose file
does not exist, the embedded call returns the wrapped `ExecutionError`, not a
`ConfigurationError`. -/
theorem C1_missing_file_wrapped_into_execution_error :
    isOkResult (mkComponentConfig APP_ID ACT_ID [] "missing.wasm" 30) = true
    ∧ executeComponent (fun _ => false)
        { application_id := APP_ID, action_id := ACT_ID, payload := [],
          wasm_file := "missing.wasm", timeout := 30 }
        (ProcessOutcome.completed 0 "" "") 0
      = Except.error
          (WasmError.executionError "Unexpected error: WASM file not found: missing.wasm") := by
  constructor
  · decide
  · decide

/-- C3: the claim says every string that is not exactly 32 lowercase-hex
characters is rejected as an id. Python's `$` anchor also matches just before a
trailing newline, so `re.match(r"^[a-f0-9]{32}$", s)` accepts the 33-character
string of 32 `'a'`s followed by `'\n'`, and construction succeeds with it as
`application_id` or as `action_id`, contradicting the claim and the code's own
error message ("must be a 32-character hex string"). -/
theorem C3_trailing_newline_id_accepted :
    NEWLINE_ID.data.length = 33
    ∧ ¬ (NEWLINE_ID.data.length = 32 ∧ NEWLINE_ID.data.all isLowerHex = true)
    ∧ isOkResult (mkComponentConfig NEWLINE_ID ACT_ID [] "actions.wasm" 30) = true
    ∧ isOkResult (mkComponentConfig APP_ID NEWLINE_ID [] "actions.wasm" 30) = true := by
  refine ⟨by decide, by decide, by decide, by decide⟩

/-- C8: the CLI entry point `main()` maps each outcome class to its distinct
process exit code: 0 for a successful result, 1 for an unsuccessful execution
result and for unclassified fatal errors, 2 for `ConfigurationError`, 3 for
`WasmEnvironmentError`, 4 for `ExecutionError`, 130 for `KeyboardInterrupt`. -/
theorem C8_exit_code_mapping :
    (∀ out : String, mainExitCode (.result true out) = 0)
    ∧ (∀ out : String, mainExitCode (.result false out) = 1)
    ∧ (∀ m : String, mainExitCode (.configurationError m) = 2)
    ∧ (∀ m : String, mainExitCode (.environmentError m) = 3)
    ∧ (∀ m : String, mainExitCode (.executionError m) = 4)
    ∧ mainExitCode .keyboardInterrupt = 130
    ∧ (∀ m : String, mainExitCode (.fatalError m) = 1) :=
  ⟨fun _ => rfl, fun _ => rfl, fun _ => rfl, fun _ => rfl, fun _ => rfl, rfl, fun _ => rfl⟩

/-- C9: the claim says the inline implementation in `main.py` and the modular
one in `src` return the same invoke expression for identical configs, including
when the payload has no `input` entry, and that the two `ComponentConfig`
dataclasses have the same field defaults. Both parts fail: on a payload without
an `input` entry the inline version serializes the default string `"{}"` while
the modular one serializes the default empty dict `{}`, and the `wasm_file`
defaults differ (`"app.wasm"` vs `"actions.wasm"`). -/
theorem C9_counterexample :
    mainBuildInvokeExpression baseConfig ≠ buildInvokeExpression baseConfig
    ∧ MAIN_DEFAULT_WASM_FILE ≠ SRC_DEFAULT_WASM_FILE := by
  refine ⟨by decide, by decide⟩

theorem sanitizeEntry_eq_some (kv : JValue × JValue) (k : String) (v : JValue) :
    sanitizeEntry kv = some (k, v) ↔ kv = (JValue.str k, v) ∧ v ≠ JValue.null := by
  constructor
  · intro h
    obtain ⟨k', v'⟩ := kv
    cases k' <;> cases v' <;> simp_all [sanitizeEntry] <;>
      (obtain ⟨h1, h2⟩ := h; subst h2; simp)
  · rintro ⟨rfl, hne⟩
    cases v <;> simp_all [sanitizeEntry]

theorem validate_config_error_of_timeout (c : ComponentConfig)
    (hids : isOkResult (validateIds c.application_id c.action_id) = true)
    (ht : c.timeout ≤ 0 ∨ 300 < c.timeout) :
    isConfigurationError c.validate = true := by
  unfold ComponentConfig.validate
  cases hv : validateIds c.application_id c.action_id with
  | error e => rw [hv] at hids; simp [isOkResult] at hids
  | ok u =>
      cases u
      have hvt : ∃ m, validateTimeout c.timeout = Except.error (WasmError.configurationError m) := by
        rcases ht with h1 | h2
        · exact ⟨"timeout must be a positive integer", by simp [validateTimeout, h1]⟩
        · exact ⟨"timeout cannot exceed 300 seconds",
            by simp [validateTimeout, if_neg (by omega : ¬ c.timeout ≤ 0), h2]⟩
      obtain ⟨m, hm⟩ := hvt
      rw [hm]
      rfl

/-- C4: for every timeout outside `(0, 300]`, constructing a config whose other
fields validate fails with `ConfigurationError`, and the boundary values 1 and
300 construct successfully. -/
theorem C4_timeout_validation :
    (∀ (aid act : String) (payload : List (String × JValue)) (w : String) (t : Int),
        isOkResult (validateIds aid act) = true →
        (t ≤ 0 ∨ 300 < t) →
        isConfigurationError (mkComponentConfig aid act payload w t) = true)
    ∧ isOkResult (mkComponentConfig APP_ID ACT_ID [] "actions.wasm" 1) = true
    ∧ isOkResult (mkComponentConfig APP_ID ACT_ID [] "actions.wasm" 300) = true := by
  refine ⟨?_, by decide, by decide⟩
  intro aid act payload w t hids ht
  exact validate_config_error_of_timeout
    { application_id := aid, action_id := act, payload := payload, wasm_file := w, timeout := t }
    hids ht

/-- C4 witness: the timeout 301 is outside the interval and the construction
with otherwise valid fields is rejected with a `ConfigurationError`. -/
theorem C4_witness :
    isOkResult (validateIds APP_ID ACT_ID) = true
    ∧ ((301 : Int) ≤ 0 ∨ (300 : Int) < 301)
    ∧ isConfigurationError (mkComponentConfig APP_ID ACT_ID [] "actions.wasm" 301) = true :=
  ⟨by decide, Or.inr (by decide),
   C4_timeout_validation.1 APP_ID ACT_ID [] "actions.wasm" 301 (by decide) (Or.inr (by decide))⟩

/-- C5: `create_config` retains exactly the entries with a string key and a
non-null value, and for the input `{"a": 1, "b": null}` the payload's encoded
`input` entry is the JSON encoding of `{"a": 1}`. -/
theorem C5_payload_sanitization :
    (∀ (l : List (JValue × JValue)) (k : String) (v : JValue),
        (k, v) ∈ sanitizeInput l ↔ ((JValue.str k, v) ∈ l ∧ v ≠ JValue.null))
    ∧ payloadInputOf (create_config "actions.wasm" 30 APP_ID ACT_ID
        (some [(JValue.str "a", JValue.num 1), (JValue.str "b", JValue.null)]))
      = some (dumps (JValue.obj [("a", JValue.num 1)]))
    ∧ dumps (JValue.obj [("a", JValue.num 1)]) = "\x7b\"a\": 1\x7d" := by
  refine ⟨?_, by decide, by decide⟩
  intro l k v
  simp only [sanitizeInput, List.mem_filterMap, sanitizeEntry_eq_some]
  constructor
  · rintro ⟨a, ha, rfl, hne⟩
    exact ⟨ha, hne⟩
  · rintro ⟨hmem, hne⟩
    exact ⟨(JValue.str k, v), hmem, rfl, hne⟩

/-- C6: for every config whose WASM file exists, the built command is exactly
the 7-element vector `[wasmtime, run, --invoke, E, -S, http, P]` with `E` the
invoke expression and `P` the resolved path; and for the payload produced by
`create_config` from an input whose value contains `"); rm -rf /;`, the
dangerous value appears inside `E`'s `input` field only JSON-escaped (every
quote preceded by a backslash) without changing the vector's structure. -/
theorem C6_command_vector :
    (∀ (fe : String → Bool) (resolve : String → String) (cfg : ComponentConfig),
        fe cfg.wasm_file = true →
        buildCommand fe resolve cfg =
          .ok [CLI_TOOL, "run", "--invoke", buildInvokeExpression cfg, "-S", "http",
               resolve cfg.wasm_file]
        ∧ ∀ cmd : List String, buildCommand fe resolve cfg = .ok cmd → cmd.length = 7)
    ∧ payloadInputOf (create_config "actions.wasm" 30 APP_ID ACT_ID
          (some [(JValue.str "key", JValue.str INJECTION_VALUE)])) = some INJECTION_ENCODED
    ∧ buildInvokeExpression injectionConfig =
        "call(\x7bapplication-id: \"be3c7dec126547c5bdb1870ca9d86778\", action-id: \"7c33a2b6355545338b536a4863486d97\", payload: \x7binput: \"\x7b\\\"key\\\": \\\"\\\\\\\"); rm -rf /;\\\"\x7d\"\x7d\x7d)" := by
  refine ⟨?_, by decide, by decide⟩
  intro fe resolve cfg hfe
  have hcmd : buildCommand fe resolve cfg =
      .ok [CLI_TOOL, "run", "--invoke", buildInvokeExpression cfg, "-S", "http",
           resolve cfg.wasm_file] := by
    simp [buildCommand, hfe, CLI_FLAGS]
  refine ⟨hcmd, ?_⟩
  intro cmd h
  rw [hcmd] at h
  injection h with h
  rw [← h]
  rfl

set_option maxRecDepth 4096 in
/-- C6 witness: the command for the injection-probe config is the concrete
7-element vector. -/
theorem C6_witness :
    ((fun _ : String => true) injectionConfig.wasm_file = true)
    ∧ buildCommand (fun _ => true) (fun p => "/abs/" ++ p) injectionConfig =
        .ok ["wasmtime", "run", "--invoke", buildInvokeExpression injectionConfig,
             "-S", "http", "/abs/actions.wasm"] :=
  ⟨rfl, ((C6_command_vector.1 (fun _ => true) (fun p => "/abs/" ++ p) injectionConfig rfl).1).trans
    (by decide)⟩

/-- C9 amended: whenever the payload has an `input` entry, the inline and the
modular `_build_invoke_expression` agree on identical configs, and the
`timeout` defaults agree (both 30); but the no-`input` defaults differ (the
inline version encodes the string `"{}"`, the modular one the empty object) and
the `wasm_file` defaults differ (`"app.wasm"` vs `"actions.wasm"`). -/
theorem C9_amended_equivalence :
    (∀ (cfg : ComponentConfig) (v : JValue), cfg.payload.lookup "input" = some v →
        mainBuildInvokeExpression cfg = buildInvokeExpression cfg)
    ∧ MAIN_DEFAULT_TIMEOUT = SRC_DEFAULT_TIMEOUT
    ∧ MAIN_DEFAULT_WASM_FILE ≠ SRC_DEFAULT_WASM_FILE := by
  refine ⟨?_, rfl, by decide⟩
  intro cfg v h
  unfold mainBuildInvokeExpression buildInvokeExpression buildInvokeExpressionWith dictGet
  rw [h]
  rfl

/-- C9 witness: on a config whose payload has an `input` entry, the two invoke
expressions coincide. -/
theorem C9_witness :
    injectionConfig.payload.lookup "input" = some (JValue.str INJECTION_ENCODED)
    ∧ mainBuildInvokeExpression injectionConfig = buildInvokeExpression injectionConfig :=
  ⟨rfl, C9_amended_equivalence.1 injectionConfig (JValue.str INJECTION_ENCODED) rfl⟩

/-- C2 counterexample: the claim predicts `output` = trimmed stdout whenever
stdout is non-empty, but (a) for exit code 0 with stdout `"\n"` (non-empty,
trimming to `""`) the code returns the literal `"Success (no output)"`, and
(b) for exit code 0 with an oversized stdout of spaces the code returns the
truncated raw stdout plus the marker, not the (empty) trimmed stdout. -/
theorem C2_counterexample :
    resultOutput (executeComponent (fun _ => true) baseConfig
        (ProcessOutcome.completed 0 "\n" "") 0) = "Success (no output)"
    ∧ "\n" ≠ "" ∧ pyStrip "\n" = "" ∧ "Success (no output)" ≠ ""
    ∧ resultOutput (executeComponent (fun _ => true) baseConfig
        (ProcessOutcome.completed 0 bigSpaces "") 0)
      = String.mk (List.replicate MAX_OUTPUT_SIZE ' ') ++ TRUNCATION_MARKER
    ∧ pyStrip bigSpaces = ""
    ∧ String.mk (List.replicate MAX_OUTPUT_SIZE ' ') ++ TRUNCATION_MARKER ≠ "" := by
  have hbig : MAX_OUTPUT_SIZE < bigSpaces.length := by
    show MAX_OUTPUT_SIZE < (List.replicate (MAX_OUTPUT_SIZE + 1) ' ').length
    simp
  have htake : bigSpaces.data.take MAX_OUTPUT_SIZE = List.replicate MAX_OUTPUT_SIZE ' ' := by
    show (List.replicate (MAX_OUTPUT_SIZE + 1) ' ').take MAX_OUTPUT_SIZE = _
    rw [List.take_replicate, Nat.min_eq_left (by omega : MAX_OUTPUT_SIZE ≤ MAX_OUTPUT_SIZE + 1)]
  refine ⟨by decide, by decide, by decide, by decide, ?_, ?_, ?_⟩
  · rw [exec_completed_zero_big (fun _ => true) baseConfig bigSpaces "" 0 rfl hbig]
    simp only [resultOutput]
    rw [htake]
  · exact pyStrip_replicate_space (MAX_OUTPUT_SIZE + 1)
  · apply strAppend_ne_empty
    show List.replicate MAX_OUTPUT_SIZE ' ' ≠ []
    intro h
    have h2 := congrArg List.length h
    rw [List.length_replicate] at h2
    simp only [List.length_nil] at h2
    exact absurd h2 (by decide)

/-- C2 amended: for a config whose WASM file exists, exit code 0 with stdout
within the 1 MiB limit yields `success=true`, output equal to trimmed stdout
(or `"Success (no output)"` when the trimmed stdout is empty) and no error
kind; a non-zero exit code yields `success=false`, output
`"Execution failed: "` plus trimmed stderr (or `"Unknown error"` when stderr
is empty) and error kind `execution_failure`; a timeout yields `success=false`,
error kind `timeout`, and a message containing the configured timeout. -/
theorem C2_amended_outcome_mapping (fe : String → Bool) (cfg : ComponentConfig)
    (rc : Int) (stdout stderr : String) (t : Nat) (hfe : fe cfg.wasm_file = true) :
    (rc = 0 → stdout.length ≤ MAX_OUTPUT_SIZE →
        executeComponent fe cfg (.completed rc stdout stderr) t =
          .ok { success := true,
                output := if pyStrip stdout = "" then "Success (no output)" else pyStrip stdout,
                exit_code := some 0, execution_time := some t, error_type := none })
    ∧ (rc ≠ 0 →
        executeComponent fe cfg (.completed rc stdout stderr) t =
          .ok { success := false,
                output := "Execution failed: " ++
                  (if stderr = "" then "Unknown error" else pyStrip stderr),
                exit_code := some rc, execution_time := some t,
                error_type := some "execution_failure" })
    ∧ executeComponent fe cfg .timedOut t =
        .ok { success := false,
              output := "Execution timed out after " ++ toString cfg.timeout ++ "s",
              exit_code := none, execution_time := some t,
              error_type := some "timeout" } := by
  refine ⟨?_, ?_, exec_timedOut fe cfg t hfe⟩
  · rintro rfl hsz
    exact exec_completed_zero_small fe cfg stdout stderr t hfe hsz
  · intro hrc
    exact exec_completed_nonzero fe cfg rc stdout stderr t hfe hrc

/-- C2 witness: the three branches at concrete inputs — stdout `"ok"` on exit 0,
stderr `"boom"` on exit 1, and a timeout with the configured 30 seconds. -/
theorem C2_witness :
    ("ok".length ≤ MAX_OUTPUT_SIZE)
    ∧ executeComponent (fun _ => true) baseConfig (.completed 0 "ok" "") 5 =
        .ok { success := true, output := "ok", exit_code := some 0,
              execution_time := some 5, error_type := none }
    ∧ executeComponent (fun _ => true) baseConfig (.completed 1 "" "boom") 5 =
        .ok { success := false, output := "Execution failed: boom", exit_code := some 1,
              execution_time := some 5, error_type := some "execution_failure" }
    ∧ executeComponent (fun _ => true) baseConfig .timedOut 5 =
        .ok { success := false, output := "Execution timed out after 30s", exit_code := none,
              execution_time := some 5, error_type := some "timeout" } :=
  ⟨by decide,
   ((C2_amended_outcome_mapping (fun _ => true) baseConfig 0 "ok" "" 5 rfl).1 rfl
      (by decide)).trans (by decide),
   ((C2_amended_outcome_mapping (fun _ => true) baseConfig 1 "" "boom" 5 rfl).2.1
      (by decide)).trans (by decide),
   ((C2_amended_outcome_mapping (fun _ => true) baseConfig 0 "" "" 5 rfl).2.2).trans
     (by decide)⟩

theorem strAppend3_ne_empty (s t u : String) (h : s.data ≠ []) : s ++ t ++ u ≠ "" :=
  strAppend_ne_empty (s ++ t) u (by
    rw [String.data_append]
    intro hc
    exact h (List.append_eq_nil.mp hc).1)

/-- C7 counterexample: the claim says the length of the returned output never
exceeds the maximum size plus the marker length, but the error-branch output is
built from stderr, which is not subject to the cap: with exit code 1 and a
1 MiB stderr the returned output has length 1 MiB + 18, which exceeds
1 MiB + 15. -/
theorem C7_counterexample :
    resultOutput (executeComponent (fun _ => true) baseConfig
        (ProcessOutcome.completed 1 "" bigErr) 0)
      = "Execution failed: " ++ bigErr
    ∧ ("Execution failed: " ++ bigErr).length = MAX_OUTPUT_SIZE + 18
    ∧ MAX_OUTPUT_SIZE + TRUNCATION_MARKER.length < MAX_OUTPUT_SIZE + 18 := by
  have hne : bigErr ≠ "" := by
    apply mk_ne_empty
    intro h
    have h2 := congrArg List.length h
    rw [List.length_replicate] at h2
    simp only [List.length_nil] at h2
    exact absurd h2 (by decide)
  have hstrip : pyStrip bigErr = bigErr :=
    pyStrip_replicate_of_not_space 'a' (by decide) MAX_OUTPUT_SIZE
  refine ⟨?_, ?_, by decide⟩
  · rw [exec_completed_nonzero (fun _ => true) baseConfig 1 "" bigErr 0 rfl (by decide)]
    simp only [resultOutput]
    rw [if_neg hne, hstrip]
  · rw [String.length_append]
    have h18 : "Execution failed: ".length = 18 := by decide
    have hbe : bigErr.length = MAX_OUTPUT_SIZE := by
      show (List.replicate MAX_OUTPUT_SIZE 'a').length = _
      rw [List.length_replicate]
    rw [h18, hbe]
    omega

/-- C7 amended: on the success branch (exit code 0), stdout exceeding the 1 MiB
limit makes the returned output end with the truncation marker with length
exactly max size + marker length, and the success-branch output length never
exceeds max size + marker length. (Error-branch outputs come from stderr and
are not subject to the cap.) -/
theorem C7_amended_truncation (fe : String → Bool) (cfg : ComponentConfig)
    (stdout stderr : String) (t : Nat) (hfe : fe cfg.wasm_file = true) :
    (MAX_OUTPUT_SIZE < stdout.length →
        TRUNCATION_MARKER.data <:+ (resultOutput (executeComponent fe cfg
            (ProcessOutcome.completed 0 stdout stderr) t)).data
        ∧ (resultOutput (executeComponent fe cfg
            (ProcessOutcome.completed 0 stdout stderr) t)).length
          = MAX_OUTPUT_SIZE + TRUNCATION_MARKER.length)
    ∧ (resultOutput (executeComponent fe cfg
        (ProcessOutcome.completed 0 stdout stderr) t)).length
      ≤ MAX_OUTPUT_SIZE + TRUNCATION_MARKER.length := by
  by_cases hbig : MAX_OUTPUT_SIZE < stdout.length
  · rw [exec_completed_zero_big fe cfg stdout stderr t hfe hbig]
    simp only [resultOutput]
    have hlen : (String.mk (stdout.data.take MAX_OUTPUT_SIZE) ++ TRUNCATION_MARKER).length
        = MAX_OUTPUT_SIZE + TRUNCATION_MARKER.length := by
      rw [String.length_append]
      congr 1
      show (stdout.data.take MAX_OUTPUT_SIZE).length = MAX_OUTPUT_SIZE
      rw [List.length_take]
      exact Nat.min_eq_left (le_of_lt hbig)
    refine ⟨fun _ => ⟨?_, hlen⟩, le_of_eq hlen⟩
    rw [String.data_append]
    exact List.suffix_append _ _
  · have hsz : stdout.length ≤ MAX_OUTPUT_SIZE := Nat.not_lt.mp hbig
    rw [exec_completed_zero_small fe cfg stdout stderr t hfe hsz]
    simp only [resultOutput]
    refine ⟨fun hcontra => absurd hcontra hbig, ?_⟩
    split
    · decide
    · calc (pyStrip stdout).length
          ≤ stdout.data.length := length_pyStrip_le stdout
        _ ≤ MAX_OUTPUT_SIZE := hsz
        _ ≤ MAX_OUTPUT_SIZE + TRUNCATION_MARKER.length := Nat.le_add_right _ _

/-- C7 witness: the oversized all-spaces stdout on the success branch is
truncated: the output ends with the marker and has length exactly
max size + marker length. -/
theorem C7_witness :
    MAX_OUTPUT_SIZE < bigSpaces.length
    ∧ (TRUNCATION_MARKER.data <:+ (resultOutput (executeComponent (fun _ => true) baseConfig
          (ProcessOutcome.completed 0 bigSpaces "") 0)).data
       ∧ (resultOutput (executeComponent (fun _ => true) baseConfig
            (ProcessOutcome.completed 0 bigSpaces "") 0)).length
         = MAX_OUTPUT_SIZE + TRUNCATION_MARKER.length) := by
  have hbig : MAX_OUTPUT_SIZE < bigSpaces.length := by
    show MAX_OUTPUT_SIZE < (List.replicate (MAX_OUTPUT_SIZE + 1) ' ').length
    simp
  exact ⟨hbig, (C7_amended_truncation (fun _ => true) baseConfig bigSpaces "" 0 rfl).1 hbig⟩

/-- C10: every result `execute_component` returns (rather than raises) has a
non-empty output, an error type that is `None` exactly when `success` is true,
a recorded execution time, and an exit code exactly when the child process ran
to completion (never on the timeout or system-error branches). -/
theorem C10_result_invariants (fe : String → Bool) (cfg : ComponentConfig)
    (outcome : ProcessOutcome) (t : Nat) (r : ExecutionResult)
    (h : executeComponent fe cfg outcome t = .ok r) :
    r.output ≠ ""
    ∧ (r.error_type = none ↔ r.success = true)
    ∧ r.execution_time ≠ none
    ∧ (r.exit_code ≠ none ↔ ∃ rc so se, outcome = ProcessOutcome.completed rc so se) := by
  by_cases hfe : fe cfg.wasm_file = true
  · cases outcome with
    | completed rc so se =>
        by_cases hrc : rc = 0
        · subst hrc
          by_cases hbig : MAX_OUTPUT_SIZE < so.length
          · rw [exec_completed_zero_big fe cfg so se t hfe hbig] at h
            injection h with h
            subst h
            refine ⟨?_, by simp, by simp, iff_of_true (by simp) ⟨0, so, se, rfl⟩⟩
            intro he
            have hd := congrArg String.data he
            rw [String.data_append] at hd
            exact absurd (List.append_eq_nil.mp hd).2 (by decide)
          · rw [exec_completed_zero_small fe cfg so se t hfe (Nat.not_lt.mp hbig)] at h
            injection h with h
            subst h
            refine ⟨?_, by simp, by simp, iff_of_true (by simp) ⟨0, so, se, rfl⟩⟩
            show (if pyStrip so = "" then "Success (no output)" else pyStrip so) ≠ ""
            split
            · decide
            · assumption
        · rw [exec_completed_nonzero fe cfg rc so se t hfe hrc] at h
          injection h with h
          subst h
          refine ⟨?_, by simp, by simp, iff_of_true (by simp) ⟨rc, so, se, rfl⟩⟩
          exact strAppend_ne_empty _ _ (by decide)
    | timedOut =>
        rw [exec_timedOut fe cfg t hfe] at h
        injection h with h
        subst h
        refine ⟨?_, by simp, by simp, iff_of_false (by simp) ?_⟩
        · exact strAppend3_ne_empty _ _ _ (by decide)
        · rintro ⟨rc, so, se, hco⟩
          exact absurd hco (by simp)
    | osError m =>
        rw [exec_osError fe cfg m t hfe] at h
        injection h with h
        subst h
        refine ⟨?_, by simp, by simp, iff_of_false (by simp) ?_⟩
        · exact strAppend_ne_empty _ _ (by decide)
        · rintro ⟨rc, so, se, hco⟩
          exact absurd hco (by simp)
    | unexpected m =>
        have hx : executeComponent fe cfg (ProcessOutcome.unexpected m) t =
            .error (.executionError ("Unexpected error: " ++ m)) := by
          simp [executeComponent, hfe]
        rw [hx] at h
        exact absurd h (by simp)
  · have hfe' : fe cfg.wasm_file = false := by
      revert hfe
      cases fe cfg.wasm_file <;> simp
    have hx : executeComponent fe cfg outcome t =
        .error (.executionError ("Unexpected error: WASM file not found: " ++ cfg.wasm_file)) := by
      simp [executeComponent, hfe']
    rw [hx] at h
    exact absurd h (by simp)

/-- C10 witness: a concrete successful completion satisfies all four
invariants. -/
theorem C10_witness :
    executeComponent (fun _ => true) baseConfig (ProcessOutcome.completed 0 "ok" "") 7 =
      .ok { success := true, output := "ok", exit_code := some 0,
            execution_time := some 7, error_type := none }
    ∧ ("ok" ≠ ""
       ∧ ((none : Option String) = none ↔ true = true)
       ∧ (some 7 : Option Nat) ≠ none
       ∧ ((some 0 : Option Int) ≠ none ↔ ∃ rc so se,
            (ProcessOutcome.completed 0 "ok" "" : ProcessOutcome)
              = ProcessOutcome.completed rc so se)) := by
  have hexec : executeComponent (fun _ => true) baseConfig (ProcessOutcome.completed 0 "ok" "") 7 =
      .ok { success := true, output := "ok", exit_code := some 0,
            execution_time := some 7, error_type := none } := by decide
  exact ⟨hexec, C10_result_invariants (fun _ => true) baseConfig _ 7 _ hexec⟩

end RunningWasm
